import Mathlib

/-!
Shallow embedding of the NexusPM backend's core business rules
(`backend/apps/organizations`, `backend/apps/workspaces`,
`backend/apps/projects`): subscription-limit resolution, membership
validation, workspace access control, task dependency blocking, and the
post-save signal handlers.  Database tables are lists of records, Django
querysets become list filters in table order, and fallible saves return
`Except`.  Timestamps are naturals counted in seconds.
-/

namespace NexusPM

/-- Organization-level membership roles (`OrganizationMembership.Role`). -/
inductive OrgRole
  | owner
  | admin
  | member
  | viewer
deriving DecidableEq, Repr

/-- Workspace-level membership roles (`WorkspaceMembership.Role`). -/
inductive WsRole
  | admin
  | manager
  | member
  | contributor
  | viewer
deriving DecidableEq, Repr

/-- Subscription plan catalog types (`SubscriptionPlan.PlanType`). -/
inductive PlanType
  | free
  | starter
  | professional
  | enterprise
deriving DecidableEq, Repr

/-- Subscription lifecycle states (`Subscription.Status`). -/
inductive SubStatus
  | active
  | trialing
  | past_due
  | cancelled
  | unpaid
deriving DecidableEq, Repr

/-- Billing cycles (`Subscription.BillingCycle`). -/
inductive BillingCycle
  | monthly
  | yearly
deriving DecidableEq, Repr

/-- Task lifecycle states (`Task.Status`). -/
inductive TaskStatus
  | todo
  | in_progress
  | in_review
  | blocked
  | completed
  | verified
deriving DecidableEq, Repr

/-- Task dependency edge types (`TaskDependency.DependencyType`). -/
inductive DepType
  | blocks
  | subtask
  | related
deriving DecidableEq, Repr

/-- The distinct `ValidationError` raises of the embedded code paths:
`Workspace.clean` rule 1 (workspace limit), `Workspace.clean` rule 2
(creator not an organization member), and the shared "user must be a member
of the organization" raise of `WorkspaceMembership.clean` and
`Workspace.add_member`. -/
inductive ValidationError
  | workspace_limit_reached
  | creator_not_org_member
  | user_not_org_member
deriving DecidableEq, Repr

/-- JSON-ish values stored in an entity's `settings` blob. -/
inductive SettingValue
  | str (s : String)
  | flag (b : Bool)
  | table (entries : List (String × SettingValue))

/-- The fields of the `User` row that the organization-creation handler
reads (timezone and language are echoed into default settings). -/
structure User where
  id : Nat
  timezone : String
  language : String

/-- A row of `organizations_membership` (the fields the embedded logic
reads: user, organization, role, is_active; unique together on
(user, organization) in the schema). -/
structure OrganizationMembership where
  user : Nat
  organization : Nat
  role : OrgRole
  is_active : Bool
deriving DecidableEq, Repr

/-- A row of `organizations_subscription_plan`: the plan type and the four
usage ceilings (pricing, features and Stripe fields are not read by the
embedded logic). -/
structure SubscriptionPlan where
  plan_type : PlanType
  max_workspaces : Nat
  max_users : Nat
  max_storage_gb : Nat
  max_projects_per_workspace : Nat
deriving DecidableEq, Repr

/-- A row of `organizations_subscription`.  The referenced plan row is
inlined (the FK is `PROTECT`ed, so the row is stable). -/
structure Subscription where
  organization : Nat
  plan : SubscriptionPlan
  status : SubStatus
  billing_cycle : BillingCycle
  current_period_start : Nat
  current_period_end : Nat
  trial_start : Option Nat
  trial_end : Option Nat
deriving DecidableEq, Repr

/-- A row of `organizations_organization` (the fields the embedded logic
reads: id, owner and the settings blob). -/
structure Organization where
  id : Nat
  owner : Nat
  settings : List (String × SettingValue)

/-- A row of `workspaces_workspace` (the fields the embedded access and
limit logic reads). -/
structure Workspace where
  id : Nat
  organization : Nat
  created_by : Nat
  is_private : Bool
  member_count : Nat
  deleted_at : Option Nat
deriving DecidableEq, Repr

/-- A row of `workspaces_membership` (with a surrogate `id` standing for
the Django autogenerated primary key). -/
structure WorkspaceMembership where
  id : Nat
  user : Nat
  workspace : Nat
  role : WsRole
  is_active : Bool
deriving DecidableEq, Repr

/-- A row of `projects_project` (the fields the embedded progress and
access logic reads). -/
structure Project where
  id : Nat
  workspace : Nat
  progress_percentage : Nat
  deleted_at : Option Nat
deriving DecidableEq, Repr

/-- A row of `projects_task` (the fields the embedded dependency and
progress logic reads). -/
structure Task where
  id : Nat
  project : Nat
  status : TaskStatus
  deleted_at : Option Nat
deriving DecidableEq, Repr

/-- A row of `projects_task_dependency`: a directed typed edge between two
task ids. -/
structure TaskDependency where
  from_task : Nat
  to_task : Nat
  dependency_type : DepType
deriving DecidableEq, Repr

/-- `Organization.current_subscription`: the organization's subscriptions
(related-manager scope) filtered to status ACTIVE or TRIALING, then
`.first()` in table order. -/
def Organization.current_subscription (subs : List Subscription) (org_id : Nat) :
    Option Subscription :=
  (subs.filter fun s => decide (s.organization = org_id)).find?
    fun s => decide (s.status = .active ∨ s.status = .trialing)

/-- `Organization.current_plan`: the plan of the current subscription, or
none. -/
def Organization.current_plan (subs : List Subscription) (org_id : Nat) :
    Option SubscriptionPlan :=
  match Organization.current_subscription subs org_id with
  | some s => some s.plan
  | none => none

/-- The four ceilings returned by `Organization.get_usage_limits`. -/
structure UsageLimits where
  max_workspaces : Nat
  max_users : Nat
  max_storage_gb : Nat
  max_projects_per_workspace : Nat
deriving DecidableEq, Repr

/-- `Organization.get_usage_limits`: the current plan's four ceilings, or
the hard-coded minimal fallback when no plan resolves. -/
def Organization.get_usage_limits (subs : List Subscription) (org_id : Nat) :
    UsageLimits :=
  match Organization.current_plan subs org_id with
  | none => { max_workspaces := 1, max_users := 1, max_storage_gb := 0,
              max_projects_per_workspace := 1 }
  | some plan => { max_workspaces := plan.max_workspaces,
                   max_users := plan.max_users,
                   max_storage_gb := plan.max_storage_gb,
                   max_projects_per_workspace := plan.max_projects_per_workspace }

/-- Live count of the organization's non-soft-deleted workspaces
(`self.workspaces.filter(deleted_at__isnull=True).count()`). -/
def Organization.active_workspace_count (workspaces : List Workspace) (org_id : Nat) : Nat :=
  (workspaces.filter fun w => decide (w.organization = org_id ∧ w.deleted_at = none)).length

/-- Live count of the organization's active memberships
(`self.memberships.filter(is_active=True).count()`). -/
def Organization.active_member_count (org_memberships : List OrganizationMembership)
    (org_id : Nat) : Nat :=
  (org_memberships.filter fun m => decide (m.organization = org_id ∧ m.is_active = true)).length

/-- `Organization.check_usage_limit`: compares a live count against the
resolved ceiling for 'workspaces' and 'users'; any other `limit_type`
falls through to `return True`. -/
def Organization.check_usage_limit (subs : List Subscription) (workspaces : List Workspace)
    (org_memberships : List OrganizationMembership) (org_id : Nat)
    (limit_type : String) : Bool :=
  let limits := Organization.get_usage_limits subs org_id
  if limit_type = "workspaces" then
    decide (Organization.active_workspace_count workspaces org_id < limits.max_workspaces)
  else if limit_type = "users" then
    decide (Organization.active_member_count org_memberships org_id < limits.max_users)
  else
    true

/-- `Workspace.can_user_access`: first active organization membership of
the user in the workspace's organization (deny when absent); organization
owners and admins always allowed; private workspaces additionally require
an active workspace membership; public workspaces allow every org member. -/
def Workspace.can_user_access (ws : Workspace) (org_memberships : List OrganizationMembership)
    (ws_memberships : List WorkspaceMembership) (user : Nat) : Bool :=
  match org_memberships.find?
      (fun m => decide (m.user = user ∧ m.organization = ws.organization ∧ m.is_active = true)) with
  | none => false
  | some om =>
    if om.role = .owner ∨ om.role = .admin then
      true
    else if ws.is_private then
      ws_memberships.any fun m =>
        decide (m.workspace = ws.id ∧ m.user = user ∧ m.is_active = true)
    else
      true

/-- `Project.can_user_access` delegates to the owning workspace:
`ws` is the `Workspace` row referenced by `p.workspace`. -/
def Project.can_user_access (p : Project) (ws : Workspace)
    (org_memberships : List OrganizationMembership)
    (ws_memberships : List WorkspaceMembership) (user : Nat) : Bool :=
  Workspace.can_user_access ws org_memberships ws_memberships user

/-- `WorkspaceMembership.clean`: the user must hold an active
organization membership in the workspace's organization, else
ValidationError.  `ws` is the `Workspace` row referenced by
`m.workspace`; both FK fields are always set here, so the `hasattr`
guard of the source is vacuously true. -/
def WorkspaceMembership.clean (m : WorkspaceMembership) (ws : Workspace)
    (org_memberships : List OrganizationMembership) : Except ValidationError Unit :=
  match org_memberships.find?
      (fun om => decide (om.user = m.user ∧ om.organization = ws.organization ∧ om.is_active = true)) with
  | none => .error .user_not_org_member
  | some _ => .ok ()

/-- Insert-or-replace a membership row by primary key, as a Django
`save()` writes a row. -/
def upsert_by_id (tbl : List WorkspaceMembership) (m : WorkspaceMembership) :
    List WorkspaceMembership :=
  if tbl.any fun x => decide (x.id = m.id) then
    tbl.map fun x => if x.id = m.id then m else x
  else
    tbl ++ [m]

/-- `WorkspaceMembership.save`: runs `clean` unconditionally (creation and
update alike) and only then persists the row. -/
def WorkspaceMembership.save (m : WorkspaceMembership) (ws : Workspace)
    (tbl : List WorkspaceMembership) (org_memberships : List OrganizationMembership) :
    Except ValidationError (List WorkspaceMembership) :=
  match WorkspaceMembership.clean m ws org_memberships with
  | .error e => .error e
  | .ok _ => .ok (upsert_by_id tbl m)

/-- `Workspace.add_member`: rejects with ValidationError when
`can_user_access` denies the user; otherwise `get_or_create`s the
membership keyed on (user, workspace) — reactivating and re-roling an
existing row — and refreshes the cached `member_count`.  `fresh_id` is the
autogenerated primary key a created row would get; the `invited_by` /
`invited_at` bookkeeping fields are not modelled. -/
def Workspace.add_member (ws : Workspace) (user : Nat) (role : WsRole)
    (org_memberships : List OrganizationMembership)
    (ws_memberships : List WorkspaceMembership) (fresh_id : Nat) :
    Except ValidationError (WorkspaceMembership × List WorkspaceMembership × Workspace) :=
  if ws.can_user_access org_memberships ws_memberships user = true then
    match ws_memberships.find? (fun m => decide (m.user = user ∧ m.workspace = ws.id)) with
    | none =>
      let m : WorkspaceMembership :=
        { id := fresh_id, user := user, workspace := ws.id, role := role, is_active := true }
      let tbl := ws_memberships ++ [m]
      .ok (m, tbl,
        { ws with member_count :=
            (tbl.filter fun x => decide (x.workspace = ws.id ∧ x.is_active = true)).length })
    | some m0 =>
      let m := { m0 with is_active := true, role := role }
      let tbl := ws_memberships.map fun x => if x.id = m0.id then m else x
      .ok (m, tbl,
        { ws with member_count :=
            (tbl.filter fun x => decide (x.workspace = ws.id ∧ x.is_active = true)).length })
  else
    .error .user_not_org_member

/-- `Workspace.clean` for a new row (`self.pk` unset): rule 1 checks the
organization's workspace limit, rule 2 requires the creator to be an
active organization member. -/
def Workspace.clean_create (w : Workspace) (subs : List Subscription)
    (workspaces : List Workspace) (org_memberships : List OrganizationMembership) :
    Except ValidationError Unit :=
  if Organization.check_usage_limit subs workspaces org_memberships w.organization
      "workspaces" = false then
    .error .workspace_limit_reached
  else if (org_memberships.any fun m =>
      decide (m.user = w.created_by ∧ m.organization = w.organization ∧ m.is_active = true)) = false then
    .error .creator_not_org_member
  else
    .ok ()

/-- The spec's `create_workspace` write path: full validation of the new
row, then the INSERT; a validation failure aborts with no row written. -/
def create_workspace (w : Workspace) (subs : List Subscription)
    (workspaces : List Workspace) (org_memberships : List OrganizationMembership) :
    Except ValidationError (List Workspace) :=
  match Workspace.clean_create w subs workspaces org_memberships with
  | .error e => .error e
  | .ok _ => .ok (workspaces ++ [w])

/-- `timezone.timedelta(days=14)` in seconds. -/
def fourteen_days : Nat := 14 * 86400

/-- The fixed default settings blob written by
`organization_created_handler`, echoing the owner's timezone and
language. -/
def default_organization_settings (owner : User) : List (String × SettingValue) :=
  [("created_via", .str "web"),
   ("onboarding_completed", .flag false),
   ("notifications", .table
      [("email_project_updates", .flag true),
       ("email_task_assignments", .flag true),
       ("email_mentions", .flag true)]),
   ("preferences", .table
      [("default_timezone", .str owner.timezone),
       ("default_language", .str owner.language),
       ("week_starts_on", .str "monday")])]

/-- The trial subscription row `organization_created_handler` creates on
the FREE plan. -/
def trial_subscription (org_id : Nat) (free_plan : SubscriptionPlan) (now : Nat) :
    Subscription :=
  { organization := org_id, plan := free_plan, status := .trialing,
    billing_cycle := .monthly, current_period_start := now,
    current_period_end := now + fourteen_days, trial_start := some now,
    trial_end := some (now + fourteen_days) }

/-- `organization_created_handler` (post_save, created=True): (1) create a
14-day TRIALING subscription on the FREE plan when that plan exists in the
catalog (the `DoesNotExist` branch only logs); (2) `get_or_create` the
owner's membership with role OWNER; (3) populate the settings blob with
the fixed default shape when it is empty.  `owner` is the `User` row
referenced by `org.owner`. -/
def organization_created_handler (org : Organization) (owner : User)
    (plans : List SubscriptionPlan) (subs : List Subscription)
    (org_memberships : List OrganizationMembership) (now : Nat) :
    Organization × List Subscription × List OrganizationMembership :=
  let subs' :=
    match plans.find? (fun p => decide (p.plan_type = .free)) with
    | some free_plan => subs ++ [trial_subscription org.id free_plan now]
    | none => subs
  let org_memberships' :=
    match org_memberships.find?
        (fun m => decide (m.user = org.owner ∧ m.organization = org.id)) with
    | some _ => org_memberships
    | none => org_memberships ++
        [{ user := org.owner, organization := org.id, role := .owner, is_active := true }]
  let org' :=
    if org.settings.isEmpty then { org with settings := default_organization_settings owner }
    else org
  (org', subs', org_memberships')

/-- `Project.get_active_tasks`: the project's non-soft-deleted tasks. -/
def Project.get_active_tasks (p : Project) (tasks : List Task) : List Task :=
  tasks.filter fun t => decide (t.project = p.id ∧ t.deleted_at = none)

/-- Python's `round` on the exact ratio `num / den` (`den ≠ 0`):
round-half-to-even, which is what `round` performs on the float
`(completed / total) * 100`. -/
def pyRound (num den : Nat) : Nat :=
  let q := num / den
  let r := num % den
  if 2 * r < den then q
  else if den < 2 * r then q + 1
  else if q % 2 = 0 then q else q + 1

/-- `Project.calculate_progress_percentage`: completed-or-verified active
tasks over all active tasks, times 100 and rounded; 0 with no write when
there are no active tasks; otherwise the cached field is written only when
it differs.  Returns (value, resulting project row, whether a write
happened). -/
def Project.calculate_progress_percentage (p : Project) (tasks : List Task) :
    Nat × Project × Bool :=
  let active := p.get_active_tasks tasks
  let total := active.length
  if total = 0 then
    (0, p, false)
  else
    let completed :=
      (active.filter fun t => decide (t.status = .completed ∨ t.status = .verified)).length
    let progress := pyRound (completed * 100) total
    if p.progress_percentage ≠ progress then
      (progress, { p with progress_percentage := progress }, true)
    else
      (progress, p, false)

/-- `task.depends_on`: Django resolves the recursive many-to-many through
`TaskDependency` by taking the first FK of the through model (`from_task`)
as the source column and the second (`to_task`) as the target, so the
accessor returns the `to_task` row of every edge whose `from_task` is this
task. -/
def Task.depends_on (t : Task) (tasks : List Task) (deps : List TaskDependency) :
    List Task :=
  (deps.filter fun d => decide (d.from_task = t.id)).filterMap
    fun d => tasks.find? fun x => decide (x.id = d.to_task)

/-- `task.dependent_tasks` (the reverse accessor of `depends_on`): the
`from_task` row of every edge whose `to_task` is this task. -/
def Task.dependent_tasks (t : Task) (tasks : List Task) (deps : List TaskDependency) :
    List Task :=
  (deps.filter fun d => decide (d.to_task = t.id)).filterMap
    fun d => tasks.find? fun x => decide (x.id = d.from_task)

/-- `Task.is_blocked`: true when the status is BLOCKED, or when some
non-deleted task of the `depends_on` accessor is outside
{COMPLETED, VERIFIED}. -/
def Task.is_blocked (t : Task) (tasks : List Task) (deps : List TaskDependency) : Bool :=
  if t.status = .blocked then
    true
  else
    (t.depends_on tasks deps).any fun b =>
      decide (b.deleted_at = none ∧ b.status ≠ .completed ∧ b.status ≠ .verified)

/-- `Task.can_start`: no blocking dependencies. -/
def Task.can_start (t : Task) (tasks : List Task) (deps : List TaskDependency) : Bool :=
  !(t.is_blocked tasks deps)

/-- UPDATE of one task's status by id. -/
def set_task_status (tasks : List Task) (id : Nat) (status : TaskStatus) : List Task :=
  tasks.map fun t => if t.id = id then { t with status := status } else t

/-- `dependency_created_handler` (post_save, created=True; `deps` already
contains the new edge `d`): for a BLOCKS edge whose target task is TODO
and now `is_blocked`, transition the target to BLOCKED. -/
def dependency_created_handler (d : TaskDependency) (tasks : List Task)
    (deps : List TaskDependency) : List Task :=
  if d.dependency_type = .blocks then
    match tasks.find? (fun t => decide (t.id = d.to_task)) with
    | some to_task =>
      if to_task.status = .todo ∧ to_task.is_blocked tasks deps = true then
        set_task_status tasks d.to_task .blocked
      else
        tasks
    | none => tasks
  else
    tasks

/-- `task_changed_handler` with created=False: recompute the owning
project's progress; when the saved task is COMPLETED or VERIFIED, walk its
`dependent_tasks` that are BLOCKED and non-deleted and set each back to
TODO when its `can_start()` (re-queried against the evolving table) says
so.  The recursive post_save a `dependent_task.save()` would fire is
single-hop here, matching the spec's one-hop-per-firing description.
`p` is the `Project` row referenced by `t.project`. -/
def task_changed_update_handler (t : Task) (p : Project) (tasks : List Task)
    (deps : List TaskDependency) : Project × List Task :=
  let p' := (p.calculate_progress_percentage tasks).2.1
  if t.status = .completed ∨ t.status = .verified then
    let blocked_dependents :=
      (t.dependent_tasks tasks deps).filter fun x =>
        decide (x.status = .blocked ∧ x.deleted_at = none)
    let tasks' := blocked_dependents.foldl
      (fun acc x => if x.can_start acc deps = true then set_task_status acc x.id .todo else acc)
      tasks
    (p', tasks')
  else
    (p', tasks)

/-- Demo row: task T1 of the blocking scenario. -/
def c1_t1 : Task := { id := 1, project := 1, status := .todo, deleted_at := none }

/-- Demo row: task T2 of the blocking scenario. -/
def c1_t2 : Task := { id := 2, project := 1, status := .todo, deleted_at := none }

/-- Demo row: the BLOCKS edge "T1 blocks T2". -/
def c1_dep : TaskDependency := { from_task := 1, to_task := 2, dependency_type := .blocks }

/-- Demo row: T1 after being saved with status COMPLETED. -/
def c1_t1_completed : Task := { id := 1, project := 1, status := .completed, deleted_at := none }

/-- Demo row: T2 in status BLOCKED. -/
def c1_t2_blocked : Task := { id := 2, project := 1, status := .blocked, deleted_at := none }

/-- Demo row: the project owning T1 and T2. -/
def c1_project : Project := { id := 1, workspace := 1, progress_percentage := 0, deleted_at := none }

/-- Demo row: an active MEMBER-role organization membership of user 7 in
organization 10. -/
def c3_org_membership : OrganizationMembership :=
  { user := 7, organization := 10, role := .member, is_active := true }

/-- Demo row: a private workspace of organization 10. -/
def c3_private_ws : Workspace :=
  { id := 20, organization := 10, created_by := 5, is_private := true,
    member_count := 0, deleted_at := none }

/-- Demo row: a task sitting in status BLOCKED. -/
def c4_blocked_task : Task := { id := 1, project := 1, status := .blocked, deleted_at := none }

/-- Demo row: a COMPLETED task appearing in the blocked task's `depends_on`. -/
def c4_dep1_task : Task := { id := 2, project := 1, status := .completed, deleted_at := none }

/-- Demo row: a VERIFIED task appearing in the blocked task's `depends_on`. -/
def c4_dep2_task : Task := { id := 3, project := 1, status := .verified, deleted_at := none }

/-- Demo table: the three tasks of the C4 scenario. -/
def c4_tasks : List Task := [c4_blocked_task, c4_dep1_task, c4_dep2_task]

/-- Demo table: the two BLOCKS edges giving the blocked task a two-element
`depends_on` set. -/
def c4_edges : List TaskDependency :=
  [{ from_task := 1, to_task := 2, dependency_type := .blocks },
   { from_task := 1, to_task := 3, dependency_type := .blocks }]

/-- Demo row: a public workspace of organization 10. -/
def c5_public_ws : Workspace :=
  { id := 30, organization := 10, created_by := 5, is_private := false,
    member_count := 0, deleted_at := none }

/-- Demo row: an active MEMBER-role organization membership of user 7 in
organization 10. -/
def c5_member : OrganizationMembership :=
  { user := 7, organization := 10, role := .member, is_active := true }

/-- Demo row: a project inside the public workspace. -/
def c5_project : Project := { id := 40, workspace := 30, progress_percentage := 0, deleted_at := none }

/-- Demo row: an organization with an empty settings blob. -/
def c8_org : Organization := { id := 100, owner := 7, settings := [] }

/-- Demo row: the owner's user record. -/
def c8_owner : User := { id := 7, timezone := "UTC", language := "en" }

/-- Demo row: a FREE catalog plan. -/
def c8_free_plan : SubscriptionPlan :=
  { plan_type := .free, max_workspaces := 1, max_users := 5, max_storage_gb := 1,
    max_projects_per_workspace := 3 }

/-- Structure-eta helper: updating the cached progress field leaves the
active-task query of the project unchanged. -/
theorem get_active_tasks_progress_update (p : Project) (tasks : List Task) (v : Nat) :
    Project.get_active_tasks { p with progress_percentage := v } tasks =
      Project.get_active_tasks p tasks :=
  rfl

/-- C1: creating the BLOCKS dependency "T1 blocks T2" while T2 is TODO
leaves T2 at TODO (the claim says T2 becomes BLOCKED), and saving T1 as
COMPLETED while T2 is BLOCKED leaves T2 BLOCKED (the claim says T2 returns
to TODO): the recursive `depends_on` M2M resolves with `from_task` as
source, so both handlers query the dependency edges in the wrong
direction, and the unblock loop's `can_start()` is always false for a
BLOCKED task. -/
theorem c1_blocks_dependency_never_blocks_or_unblocks :
    dependency_created_handler c1_dep [c1_t1, c1_t2] [c1_dep] = [c1_t1, c1_t2]
    ∧ (task_changed_update_handler c1_t1_completed c1_project
        [c1_t1_completed, c1_t2_blocked] [c1_dep]).2 = [c1_t1_completed, c1_t2_blocked] := by
  decide

/-- C3 counterexample: user 7 holds an active organization membership in
organization 10, yet `add_member` on a private workspace of that
organization raises ValidationError (the claim says every org member is
accepted). -/
theorem c3_add_member_rejects_an_org_member :
    Workspace.add_member c3_private_ws 7 .member [c3_org_membership] [] 99 =
      .error .user_not_org_member
    ∧ ([c3_org_membership].any fun m =>
        decide (m.user = 7 ∧ m.organization = c3_private_ws.organization ∧
          m.is_active = true)) = true :=
  ⟨rfl, by decide⟩

/-- C4 counterexample: a task whose `depends_on` set is exactly
{D1, D2} with D1 COMPLETED and D2 VERIFIED (both non-deleted) still has
`is_blocked` true — its own status BLOCKED short-circuits — so the
claimed "iff at least one dependency is incomplete" fails. -/
theorem c4_is_blocked_despite_completed_deps :
    Task.depends_on c4_blocked_task c4_tasks c4_edges = [c4_dep1_task, c4_dep2_task]
    ∧ c4_dep1_task.status = .completed ∧ c4_dep2_task.status = .verified
    ∧ c4_dep1_task.deleted_at = none ∧ c4_dep2_task.deleted_at = none
    ∧ Task.is_blocked c4_blocked_task c4_tasks c4_edges = true
    ∧ Task.can_start c4_blocked_task c4_tasks c4_edges = false := by
  decide

/-- C4 (amended): `can_start` is the negation of `is_blocked`, and
`is_blocked` is true iff the task's own status is BLOCKED or some
non-deleted task of its `depends_on` set is outside
{COMPLETED, VERIFIED}. -/
theorem c4_is_blocked_characterization (t : Task) (tasks : List Task)
    (deps : List TaskDependency) :
    Task.can_start t tasks deps = !(Task.is_blocked t tasks deps)
    ∧ (Task.is_blocked t tasks deps = true ↔
        t.status = .blocked ∨ ∃ d ∈ t.depends_on tasks deps,
          d.deleted_at = none ∧ d.status ≠ .completed ∧ d.status ≠ .verified) := by
  refine ⟨rfl, ?_⟩
  unfold Task.is_blocked
  by_cases hs : t.status = .blocked
  · simp [hs]
  · simp [hs, List.any_eq_true]

/-- C10: for every `limit_type` other than 'workspaces' and 'users' —
'storage' and 'projects' included — `check_usage_limit` returns True
unconditionally. -/
theorem c10_check_usage_limit_other_kinds (subs : List Subscription)
    (workspaces : List Workspace) (org_memberships : List OrganizationMembership)
    (org_id : Nat) (limit_type : String)
    (h1 : limit_type ≠ "workspaces") (h2 : limit_type ≠ "users") :
    Organization.check_usage_limit subs workspaces org_memberships org_id limit_type = true := by
  unfold Organization.check_usage_limit
  rw [if_neg h1, if_neg h2]

/-- C10 witness: concrete 'storage' and 'projects' checks pass against an
empty database. -/
theorem c10_check_usage_limit_other_kinds_witness :
    Organization.check_usage_limit [] [] [] 0 "storage" = true
    ∧ Organization.check_usage_limit [] [] [] 0 "projects" = true :=
  ⟨c10_check_usage_limit_other_kinds [] [] [] 0 "storage" (by decide) (by decide),
   c10_check_usage_limit_other_kinds [] [] [] 0 "projects" (by decide) (by decide)⟩

/-- C2: saving a WorkspaceMembership persists the row exactly when the
user holds an active organization membership in the workspace's
organization, and otherwise raises ValidationError with nothing written;
the validation has no creation-only guard, so this holds for inserts and
updates alike. -/
theorem c2_membership_save_validates_org_membership (m : WorkspaceMembership)
    (ws : Workspace) (tbl : List WorkspaceMembership)
    (org_memberships : List OrganizationMembership) :
    WorkspaceMembership.save m ws tbl org_memberships =
      (if (org_memberships.any fun om =>
            decide (om.user = m.user ∧ om.organization = ws.organization ∧
              om.is_active = true)) = true
       then Except.ok (upsert_by_id tbl m)
       else Except.error ValidationError.user_not_org_member) := by
  unfold WorkspaceMembership.save WorkspaceMembership.clean
  cases h : org_memberships.find?
      (fun om => decide (om.user = m.user ∧ om.organization = ws.organization ∧
        om.is_active = true)) with
  | none =>
    have hany : (org_memberships.any fun om =>
        decide (om.user = m.user ∧ om.organization = ws.organization ∧
          om.is_active = true)) = false := by
      rw [List.any_eq_false]
      intro x hx
      exact List.find?_eq_none.mp h x hx
    rw [hany]
    rfl
  | some om =>
    have hpom := List.find?_some h
    have hany : (org_memberships.any fun om =>
        decide (om.user = m.user ∧ om.organization = ws.organization ∧
          om.is_active = true)) = true :=
      List.any_eq_true.mpr ⟨om, List.mem_of_find?_eq_some h, hpom⟩
    rw [hany]
    rfl

/-- C3 (amended): `add_member` raises ValidationError exactly when
`can_user_access` denies the user — so not only for non-members of the
organization, but also for org members without owner/admin role and
without an existing active membership on a private workspace; on success
it returns an active membership of the user in this workspace. -/
theorem c3_add_member_rejects_iff_access_denied (ws : Workspace) (user : Nat)
    (role : WsRole) (org_memberships : List OrganizationMembership)
    (ws_memberships : List WorkspaceMembership) (fresh_id : Nat) :
    match Workspace.add_member ws user role org_memberships ws_memberships fresh_id with
    | .error e => e = ValidationError.user_not_org_member
        ∧ ws.can_user_access org_memberships ws_memberships user = false
    | .ok r => ws.can_user_access org_memberships ws_memberships user = true
        ∧ r.1.user = user ∧ r.1.workspace = ws.id ∧ r.1.is_active = true := by
  unfold Workspace.add_member
  by_cases h : ws.can_user_access org_memberships ws_memberships user = true
  · rw [if_pos h]
    cases hf : ws_memberships.find? (fun m => decide (m.user = user ∧ m.workspace = ws.id)) with
    | none => exact ⟨h, rfl, rfl, rfl⟩
    | some m0 =>
      have hp := List.find?_some hf
      simp only [decide_eq_true_eq] at hp
      exact ⟨h, hp.1, hp.2, rfl⟩
  · rw [if_neg h]
    exact ⟨rfl, by simpa using h⟩

/-- C5: under the schema's (user, organization) uniqueness,
`can_user_access` holds iff the user has an active membership in the
workspace's organization whose role is OWNER or ADMIN, or the workspace is
public, or the user holds an active workspace membership; and project
access delegates to the owning workspace (`ws` is the row referenced by
`p.workspace`). -/
theorem c5_access_resolver (ws : Workspace) (user : Nat)
    (org_memberships : List OrganizationMembership)
    (ws_memberships : List WorkspaceMembership) (p : Project)
    (huniq : ∀ m1 ∈ org_memberships, ∀ m2 ∈ org_memberships,
      m1.user = m2.user → m1.organization = m2.organization → m1 = m2) :
    (Workspace.can_user_access ws org_memberships ws_memberships user = true ↔
      ∃ om ∈ org_memberships, om.user = user ∧ om.organization = ws.organization ∧
        om.is_active = true ∧
        (om.role = .owner ∨ om.role = .admin ∨ ws.is_private = false ∨
          ∃ wm ∈ ws_memberships,
            wm.workspace = ws.id ∧ wm.user = user ∧ wm.is_active = true))
    ∧ Project.can_user_access p ws org_memberships ws_memberships user =
        Workspace.can_user_access ws org_memberships ws_memberships user := by
  refine ⟨?_, rfl⟩
  unfold Workspace.can_user_access
  cases hf : org_memberships.find?
      (fun m => decide (m.user = user ∧ m.organization = ws.organization ∧
        m.is_active = true)) with
  | none =>
    simp only [Bool.false_eq_true, false_iff]
    rintro ⟨om, hom, h1, h2, h3, -⟩
    have hno := List.find?_eq_none.mp hf om hom
    simp [h1, h2, h3] at hno
  | some om =>
    simp only []
    have hmem : om ∈ org_memberships := List.mem_of_find?_eq_some hf
    have hp := List.find?_some hf
    simp only [decide_eq_true_eq] at hp
    obtain ⟨hu, ho, ha⟩ := hp
    by_cases hr : om.role = OrgRole.owner ∨ om.role = OrgRole.admin
    · rw [if_pos hr]
      constructor
      · intro _
        exact ⟨om, hmem, hu, ho, ha,
          Or.elim hr (fun h => Or.inl h) (fun h => Or.inr (Or.inl h))⟩
      · intro _
        rfl
    · rw [if_neg hr]
      cases hb : ws.is_private with
      | false =>
        rw [if_neg Bool.false_ne_true]
        constructor
        · intro _
          exact ⟨om, hmem, hu, ho, ha, Or.inr (Or.inr (Or.inl rfl))⟩
        · intro _
          rfl
      | true =>
        rw [if_pos rfl]
        constructor
        · intro hAny
          obtain ⟨wm, hwm, hwp⟩ := List.any_eq_true.mp hAny
          simp only [decide_eq_true_eq] at hwp
          exact ⟨om, hmem, hu, ho, ha, Or.inr (Or.inr (Or.inr ⟨wm, hwm, hwp⟩))⟩
        · rintro ⟨om2, hom2, hu2, ho2, ha2, hdisj⟩
          have heq : om2 = om := huniq om2 hom2 om hmem (hu2.trans hu.symm) (ho2.trans ho.symm)
          subst heq
          rcases hdisj with h | h | h | ⟨wm, hwm, hwp⟩
          · exact absurd (Or.inl h) hr
          · exact absurd (Or.inr h) hr
          · cases h
          · exact List.any_eq_true.mpr ⟨wm, hwm, by exact decide_eq_true hwp⟩

/-- C5 witness: an org member with plain MEMBER role can access a public
workspace of the organization. -/
theorem c5_access_resolver_witness :
    Workspace.can_user_access c5_public_ws [c5_member] [] 7 = true :=
  (c5_access_resolver c5_public_ws 7 [c5_member] [] c5_project (by decide)).1.mpr
    ⟨c5_member, by decide, by decide, by decide, by decide,
      Or.inr (Or.inr (Or.inl (by decide)))⟩

/-- The 'workspaces' branch of `check_usage_limit`: live non-deleted
workspace count against the resolved ceiling. -/
theorem check_usage_limit_workspaces (subs : List Subscription)
    (workspaces : List Workspace) (org_memberships : List OrganizationMembership)
    (org_id : Nat) :
    Organization.check_usage_limit subs workspaces org_memberships org_id "workspaces" =
      decide (Organization.active_workspace_count workspaces org_id <
        (Organization.get_usage_limits subs org_id).max_workspaces) := by
  simp [Organization.check_usage_limit]

/-- C6: the `create_workspace` write path rejects with the workspace-limit
ValidationError precisely when the live count of non-deleted workspaces in
the target organization has reached the resolved `max_workspaces` ceiling;
on success the count was below the ceiling and exactly the new row is
appended (rejection writes nothing). -/
theorem c6_create_workspace_limit_gate (w : Workspace) (subs : List Subscription)
    (workspaces : List Workspace) (org_memberships : List OrganizationMembership) :
    match create_workspace w subs workspaces org_memberships with
    | .error e =>
        e = ValidationError.workspace_limit_reached ↔
          (Organization.get_usage_limits subs w.organization).max_workspaces ≤
            Organization.active_workspace_count workspaces w.organization
    | .ok tbl =>
        Organization.active_workspace_count workspaces w.organization <
          (Organization.get_usage_limits subs w.organization).max_workspaces
        ∧ tbl = workspaces ++ [w] := by
  unfold create_workspace Workspace.clean_create
  rw [check_usage_limit_workspaces]
  by_cases hlt : Organization.active_workspace_count workspaces w.organization <
      (Organization.get_usage_limits subs w.organization).max_workspaces
  · rw [if_neg (by simp [hlt])]
    by_cases hmem : (org_memberships.any fun m =>
        decide (m.user = w.created_by ∧ m.organization = w.organization ∧
          m.is_active = true)) = false
    · rw [if_pos hmem]
      constructor
      · intro h
        cases h
      · intro h
        omega
    · rw [if_neg hmem]
      exact ⟨hlt, rfl⟩
  · rw [if_pos (by simp [hlt])]
    constructor
    · intro _
      omega
    · intro _
      rfl

/-- C7: the current subscription is absent exactly when the organization
has no subscription in status ACTIVE or TRIALING, and `get_usage_limits`
returns the current plan's four ceilings, falling back to the hard-coded
minimal limits {1, 1, 0, 1} when no subscription resolves. -/
theorem c7_usage_limits_resolution (subs : List Subscription) (org_id : Nat) :
    (Organization.current_subscription subs org_id = none ↔
      subs.filter (fun s => decide (s.organization = org_id ∧
        (s.status = .active ∨ s.status = .trialing))) = [])
    ∧ Organization.get_usage_limits subs org_id =
        (match Organization.current_subscription subs org_id with
         | none => { max_workspaces := 1, max_users := 1, max_storage_gb := 0,
                     max_projects_per_workspace := 1 }
         | some s => { max_workspaces := s.plan.max_workspaces,
                       max_users := s.plan.max_users,
                       max_storage_gb := s.plan.max_storage_gb,
                       max_projects_per_workspace := s.plan.max_projects_per_workspace }) := by
  constructor
  · unfold Organization.current_subscription
    rw [List.find?_eq_none, List.filter_eq_nil_iff]
    constructor
    · intro h s hs hp
      simp only [decide_eq_true_eq] at hp
      have hsf : s ∈ subs.filter (fun s => decide (s.organization = org_id)) :=
        List.mem_filter.mpr ⟨hs, by exact decide_eq_true hp.1⟩
      exact h s hsf (by exact decide_eq_true hp.2)
    · intro h s hs hp
      have hs' := List.mem_filter.mp hs
      have ho := hs'.2
      simp only [decide_eq_true_eq] at ho hp
      exact h s hs'.1 (by exact decide_eq_true ⟨ho, hp⟩)
  · cases h : Organization.current_subscription subs org_id <;>
      simp [Organization.get_usage_limits, Organization.current_plan, h]

/-- C8: for a freshly created organization (no membership row references
it yet), the creation handler leaves exactly one OWNER membership for
(owner, organization) — and exactly one membership for that pair at all —
appends a TRIALING subscription with a 14-day trial window iff a FREE
plan exists in the catalog (a missing FREE plan skips the subscription
without failing), and fills an empty settings blob with the fixed
default shape. -/
theorem c8_org_created_handler_effects (org : Organization) (owner : User)
    (plans : List SubscriptionPlan) (subs : List Subscription)
    (org_memberships : List OrganizationMembership) (now : Nat)
    (hfresh : org_memberships.filter (fun m => decide (m.organization = org.id)) = []) :
    ((organization_created_handler org owner plans subs org_memberships now).2.2.filter
        (fun m => decide (m.user = org.owner ∧ m.organization = org.id ∧
          m.role = .owner ∧ m.is_active = true))).length = 1
    ∧ ((organization_created_handler org owner plans subs org_memberships now).2.2.filter
        (fun m => decide (m.user = org.owner ∧ m.organization = org.id))).length = 1
    ∧ (organization_created_handler org owner plans subs org_memberships now).2.1 =
        (match plans.find? (fun p => decide (p.plan_type = .free)) with
         | some fp => subs ++ [trial_subscription org.id fp now]
         | none => subs)
    ∧ (∀ fp, (trial_subscription org.id fp now).status = .trialing ∧
        (trial_subscription org.id fp now).trial_start = some now ∧
        (trial_subscription org.id fp now).trial_end = some (now + fourteen_days))
    ∧ (organization_created_handler org owner plans subs org_memberships now).1.settings =
        (if org.settings.isEmpty then default_organization_settings owner
         else org.settings) := by
  have horg : ∀ m ∈ org_memberships, ¬ m.organization = org.id := by
    intro m hm hmo
    have hmem : m ∈ org_memberships.filter (fun m => decide (m.organization = org.id)) :=
      List.mem_filter.mpr ⟨hm, by exact decide_eq_true hmo⟩
    rw [hfresh] at hmem
    cases hmem
  have hnone : org_memberships.find?
      (fun m => decide (m.user = org.owner ∧ m.organization = org.id)) = none := by
    rw [List.find?_eq_none]
    intro m hm hpm
    simp only [decide_eq_true_eq] at hpm
    exact horg m hm hpm.2
  have hms : (organization_created_handler org owner plans subs org_memberships now).2.2 =
      org_memberships ++
        [{ user := org.owner, organization := org.id, role := .owner, is_active := true }] := by
    simp only [organization_created_handler, hnone]
  refine ⟨?_, ?_, ?_, ?_, ?_⟩
  · rw [hms, List.filter_append]
    have h1 : org_memberships.filter
        (fun m => decide (m.user = org.owner ∧ m.organization = org.id ∧
          m.role = .owner ∧ m.is_active = true)) = [] := by
      rw [List.filter_eq_nil_iff]
      intro m hm hpm
      simp only [decide_eq_true_eq] at hpm
      exact horg m hm hpm.2.1
    rw [h1]
    simp
  · rw [hms, List.filter_append]
    have h1 : org_memberships.filter
        (fun m => decide (m.user = org.owner ∧ m.organization = org.id)) = [] := by
      rw [List.filter_eq_nil_iff]
      intro m hm hpm
      simp only [decide_eq_true_eq] at hpm
      exact horg m hm hpm.2
    rw [h1]
    simp
  · simp only [organization_created_handler]
  · intro fp
    exact ⟨rfl, rfl, rfl⟩
  · by_cases hset : org.settings.isEmpty <;>
      simp [organization_created_handler, hset]

/-- C8 witness: a concrete fresh organization with an empty database and a
FREE plan in the catalog ends with exactly one OWNER membership for its
owner. -/
theorem c8_org_created_handler_effects_witness :
    ((organization_created_handler c8_org c8_owner [c8_free_plan] [] [] 0).2.2.filter
        (fun m => decide (m.user = c8_org.owner ∧ m.organization = c8_org.id ∧
          m.role = .owner ∧ m.is_active = true))).length = 1 :=
  (c8_org_created_handler_effects c8_org c8_owner [c8_free_plan] [] [] 0 rfl).1

/-- C9: `calculate_progress_percentage` returns the rounded percentage of
completed-or-verified active tasks (0 for a task-free project), writes the
cached field exactly when the project has active tasks and the stored
value differs, and is idempotent: a second call with unchanged tasks
returns the same value, performs no write, and leaves the row as the
first call left it. -/
theorem c9_progress_idempotent (p : Project) (tasks : List Task) :
    (p.calculate_progress_percentage tasks).1 =
      (if (p.get_active_tasks tasks).length = 0 then 0
       else pyRound
         (((p.get_active_tasks tasks).filter fun t =>
             decide (t.status = .completed ∨ t.status = .verified)).length * 100)
         (p.get_active_tasks tasks).length)
    ∧ ((p.calculate_progress_percentage tasks).2.2 = true ↔
        ((p.get_active_tasks tasks).length ≠ 0 ∧
         p.progress_percentage ≠ (p.calculate_progress_percentage tasks).1))
    ∧ ((p.calculate_progress_percentage tasks).2.1.calculate_progress_percentage tasks).1 =
        (p.calculate_progress_percentage tasks).1
    ∧ ((p.calculate_progress_percentage tasks).2.1.calculate_progress_percentage tasks).2.2 =
        false
    ∧ ((p.calculate_progress_percentage tasks).2.1.calculate_progress_percentage tasks).2.1 =
        (p.calculate_progress_percentage tasks).2.1 := by
  by_cases h0 : (p.get_active_tasks tasks).length = 0
  · simp [Project.calculate_progress_percentage, h0]
  · by_cases hch : p.progress_percentage =
        pyRound (((p.get_active_tasks tasks).filter fun t =>
          decide (t.status = .completed ∨ t.status = .verified)).length * 100)
        (p.get_active_tasks tasks).length
    · simp [Project.calculate_progress_percentage, h0, hch]
    · simp only [Bool.decide_or] at hch
      simp [Project.calculate_progress_percentage, h0, hch,
        get_active_tasks_progress_update]

end NexusPM
